import Mathlib

/-!
# Verification of the encrypted synchronization engine

Shallow embedding of the finance-dashboard synchronization core
(`api_integrations.py`, `app.py`) and proofs about it.

Modelling conventions:
* SQLite tables become Lean structures holding a list of rows together with
  the next autoincrement rowid.  `INSERT OR IGNORE` / `INSERT OR REPLACE`
  are modelled with exactly the uniqueness constraints the schemas declare
  (only `id INTEGER PRIMARY KEY AUTOINCREMENT`; no table declares a
  `UNIQUE` constraint on any other column).
* Timestamps (`datetime.now()`, `CURRENT_TIMESTAMP`) are abstract `Nat`
  (or `Int` where subtraction matters) tick values supplied by the caller.
* Monetary amounts and prices (Python floats) are modelled as `Rat`; the
  code only stores, compares and takes absolute values, so no rounding
  behaviour is involved.
* Fernet encryption (`cipher_suite.encrypt` / `.decrypt`) lives in a
  third-party library, not in this repository; it is modelled from the
  spec (see `seal` below).  For values whose ciphertext itself is never
  inspected (account payloads, category notes) the sealed blob is
  modelled as the payload tagged with the sealing key (`Sealed`),
  abstracting JSON serialization.
-/

/-- A sealed container: `cipher_suite.encrypt(json.dumps(v).encode())`.
The JSON/byte serialization is abstracted; the blob records the key it was
sealed under and the payload it protects. -/
structure Sealed (α : Type) where
  keyId : Int
  payload : α
deriving DecidableEq, Repr

/-- `cipher_suite.encrypt(json.dumps(v).encode()).decode()` at the value level. -/
def sealVal {α : Type} (key : Int) (v : α) : Sealed α := ⟨key, v⟩

/-- Modelled from the spec: `EncryptedBlob` is "opaque ciphertext +
authentication tag".  The Fernet implementation is library code absent from
the repository; here the ciphertext is a reversible key-dependent transform
of the plaintext bytes and the stored `keyId` plays the role of the
authentication tag (opening under another key fails). -/
structure EncryptedBlob where
  keyId : Int
  ct : List Int
deriving DecidableEq, Repr

/-- Modelled from the spec: `seal(plaintext: bytes) -> EncryptedBlob` —
authenticated symmetric encryption; total, never fails for well-formed
input.  Source wrapper: `encrypt_data` in `app.py`. -/
def sealBytes (key : Int) (pt : List Int) : EncryptedBlob :=
  ⟨key, pt.map (fun b => b + key)⟩

/-- Modelled from the spec: `open(blob) -> bytes`, failing (`none`) when the
blob was sealed under a different key.  Source wrapper: `decrypt_data` in
`app.py`. -/
def openBlob (key : Int) (b : EncryptedBlob) : Option (List Int) :=
  if b.keyId = key then some (b.ct.map (fun c => c - key)) else none

/-- `app.py` `encrypt_data`: encrypt sensitive data with the process key. -/
def encrypt_data (key : Int) (data : List Int) : EncryptedBlob := sealBytes key data

/-- `app.py` `decrypt_data`: decrypt sensitive data with the process key. -/
def decrypt_data (key : Int) (blob : EncryptedBlob) : Option (List Int) :=
  openBlob key blob

/-! ## Transactions table (`app.py` `init_database`)

```sql
CREATE TABLE IF NOT EXISTS transactions (
    id INTEGER PRIMARY KEY AUTOINCREMENT,
    account_id INTEGER NOT NULL,
    amount REAL NOT NULL,
    description TEXT,
    transaction_type TEXT NOT NULL,
    date TIMESTAMP NOT NULL,
    encrypted_notes TEXT,
    created_at TIMESTAMP DEFAULT CURRENT_TIMESTAMP,
    FOREIGN KEY (account_id) REFERENCES accounts (id)
)
```
The only uniqueness constraint is the rowid primary key. -/

/-- One row of the `transactions` table.  `encrypted_notes` is `none` for
the empty string and `some` sealed category list otherwise. -/
structure TransRow where
  id : Nat
  account_id : Nat
  amount : Rat
  description : String
  transaction_type : String
  date : String
  encrypted_notes : Option (Sealed (List String))
deriving DecidableEq, Repr

/-- The `transactions` table: rows plus the next autoincrement rowid. -/
structure TransTable where
  nextId : Nat
  rows : List TransRow
deriving DecidableEq, Repr

/-- `INSERT OR IGNORE INTO transactions (account_id, amount, description,
transaction_type, date, encrypted_notes) VALUES (...)`.

SQLite's `OR IGNORE` skips the insert only when it would violate a
uniqueness constraint.  The schema declares only
`id INTEGER PRIMARY KEY AUTOINCREMENT`; the id is not supplied by the
`INSERT`, so a fresh autoincrement rowid (`nextId`) is assigned, and the
insert is skipped exactly when that rowid already exists (it never does by
table construction).  The caller's `r.id` is overwritten by the fresh
rowid. -/
def TransTable.insertOrIgnore (t : TransTable) (r : TransRow) : TransTable :=
  if t.rows.any (fun x => x.id = t.nextId) then t
  else { nextId := t.nextId + 1, rows := t.rows ++ [{ r with id := t.nextId }] }

/-- The natural key the spec attributes to transactions:
(account, amount, description, type, date). -/
def transNaturalKeyEq (account_id : Nat) (amount : Rat) (description : String)
    (transaction_type : String) (date : String) (r : TransRow) : Bool :=
  r.account_id = account_id && r.amount = amount && r.description = description
    && r.transaction_type = transaction_type && r.date = date

/-! ## Holdings tables (`api_integrations.py` `init_database`)

```sql
CREATE TABLE IF NOT EXISTS stock_holdings (
    id INTEGER PRIMARY KEY AUTOINCREMENT,
    user_id INTEGER NOT NULL,
    symbol TEXT NOT NULL,
    shares REAL NOT NULL,
    purchase_price REAL,
    current_price REAL,
    last_updated TIMESTAMP DEFAULT CURRENT_TIMESTAMP,
    FOREIGN KEY (user_id) REFERENCES users (id)
)
```
(`crypto_holdings` is identical with `amount` in place of `shares`.)
Again the only uniqueness constraint is the rowid primary key. -/

/-- One row of `stock_holdings` (or `crypto_holdings`, whose quantity
column is named `amount`; the shape is identical). -/
structure HoldingRow where
  id : Nat
  user_id : Nat
  symbol : String
  shares : Rat
  purchase_price : Rat
  current_price : Rat
  last_updated : Nat
deriving DecidableEq, Repr

/-- A holdings table: rows plus the next autoincrement rowid. -/
structure HoldingsTable where
  nextId : Nat
  rows : List HoldingRow
deriving DecidableEq, Repr

/-- `INSERT OR REPLACE INTO stock_holdings (user_id, symbol, shares,
purchase_price, current_price) VALUES (...)`.

SQLite's `OR REPLACE` deletes any rows that conflict with the new row on a
uniqueness constraint, then inserts.  The only constraint is the rowid
primary key; the id is not supplied, so a fresh autoincrement rowid is
assigned and the delete-set is empty.  `last_updated` takes its
`CURRENT_TIMESTAMP` default `now`. -/
def HoldingsTable.insertOrReplace (t : HoldingsTable) (r : HoldingRow) :
    HoldingsTable :=
  { nextId := t.nextId + 1,
    rows := t.rows.filter (fun x => x.id ≠ t.nextId) ++ [{ r with id := t.nextId }] }

/-- `app.py` `add_stock_holding`: insert the user's holding with
`current_price = 0`. -/
def add_stock_holding (now : Nat) (t : HoldingsTable) (user_id : Nat)
    (symbol : String) (shares purchase_price : Rat) : HoldingsTable :=
  t.insertOrReplace
    { id := 0, user_id := user_id, symbol := symbol, shares := shares,
      purchase_price := purchase_price, current_price := 0, last_updated := now }

/-- `app.py` `add_crypto_holding`: identical shape to `add_stock_holding`
(the quantity column is named `amount` in the schema). -/
def add_crypto_holding (now : Nat) (t : HoldingsTable) (user_id : Nat)
    (symbol : String) (amount purchase_price : Rat) : HoldingsTable :=
  t.insertOrReplace
    { id := 0, user_id := user_id, symbol := symbol, shares := amount,
      purchase_price := purchase_price, current_price := 0, last_updated := now }

/-! ## Provider adapter (`PlaidAPI`) -/

/-- A raw transaction as returned by the provider: signed float amount,
display name, date, optional category list. -/
structure PlaidTransaction where
  amount : Rat
  name : String
  date : String
  category : List String
deriving DecidableEq, Repr

/-- A normalized transaction, the dict built in
`PlaidAPI._get_transactions`. -/
structure TransactionN where
  amount : Rat
  description : String
  transaction_type : String
  date : String
  category : List String
deriving DecidableEq, Repr

/-- The request window of `PlaidAPI._get_transactions`:
`start_date = end_date - timedelta(days=30)`, `end_date = datetime.now()`. -/
def transactions_window (now : Int) : Int × Int := (now - 30, now)

/-- The per-transaction normalization of `PlaidAPI._get_transactions`:
`amount = abs(t['amount'])`, type `'credit' if t['amount'] > 0 else 'debit'`. -/
def normalize_transaction (t : PlaidTransaction) : TransactionN :=
  { amount := |t.amount|,
    description := t.name,
    transaction_type := if 0 < t.amount then "credit" else "debit",
    date := t.date,
    category := t.category }

/-- `PlaidAPI._map_account_type`: the fixed lookup table
`{'depository': 'checking', 'credit': 'credit', 'loan': 'loan',
'investment': 'investment', 'brokerage': 'stock'}` with default
`'other'`. -/
def map_account_type (plaid_type : String) : String :=
  if plaid_type = "depository" then "checking"
  else if plaid_type = "credit" then "credit"
  else if plaid_type = "loan" then "loan"
  else if plaid_type = "investment" then "investment"
  else if plaid_type = "brokerage" then "stock"
  else "other"

/-- The `AccountData` dataclass of `api_integrations.py`.  `transactions`
holds the already-normalized dicts from `_get_transactions`; Python's
`None` and `[]` are both modelled as `[]` (both are falsy at the single
use site `if account_data.transactions:`). -/
structure AccountData where
  account_id : String
  account_name : String
  account_type : String
  balance : Rat
  currency : String
  institution : String
  last_updated : Nat
  transactions : List TransactionN
deriving DecidableEq, Repr

/-! ## Accounts table (`app.py` `init_database`)

```sql
CREATE TABLE IF NOT EXISTS accounts (
    id INTEGER PRIMARY KEY AUTOINCREMENT,
    user_id INTEGER NOT NULL,
    account_name TEXT NOT NULL,
    account_type TEXT NOT NULL,
    encrypted_data TEXT NOT NULL,
    created_at TIMESTAMP DEFAULT CURRENT_TIMESTAMP,
    updated_at TIMESTAMP DEFAULT CURRENT_TIMESTAMP,
    FOREIGN KEY (user_id) REFERENCES users (id)
)
``` -/

/-- The `account_info` dict sealed into `encrypted_data` by
`_update_account_from_api`. -/
structure AccountInfo where
  balance : Rat
  currency : String
  institution : String
  last_api_update : Nat
deriving DecidableEq, Repr

/-- One row of the `accounts` table. -/
structure AccountRow where
  id : Nat
  user_id : Nat
  account_name : String
  account_type : String
  encrypted_data : Sealed AccountInfo
  created_at : Nat
  updated_at : Nat
deriving DecidableEq, Repr

/-- The `accounts` table: rows plus the next autoincrement rowid. -/
structure AccountsTable where
  nextId : Nat
  rows : List AccountRow
deriving DecidableEq, Repr

/-- The reconciliation join predicate of `_update_account_from_api`:
`SELECT id FROM accounts WHERE user_id = ? AND account_name = ?`. -/
def accountKeyMatches (user_id : Nat) (account_name : String)
    (r : AccountRow) : Bool :=
  r.user_id = user_id && r.account_name = account_name

/-! ## API connections table (`api_integrations.py` `init_database`) -/

/-- One row of the `api_connections` table. -/
structure ConnectionRow where
  id : Nat
  user_id : Nat
  institution_name : String
  api_type : String
  encrypted_credentials : Sealed (List (String × String))
  is_active : Bool
  last_sync : Option Nat
deriving DecidableEq, Repr

/-- The database state touched by the synchronization engine. -/
structure DB where
  api_connections : List ConnectionRow
  accounts : AccountsTable
  transactions : TransTable
  stock_holdings : HoldingsTable
  crypto_holdings : HoldingsTable
deriving DecidableEq, Repr

/-- The transaction-insertion loop at the end of
`_update_account_from_api`: for each normalized transaction, seal the
category when non-empty (empty categories yield the empty string,
modelled `none`) and `INSERT OR IGNORE` the row. -/
def insertTransactions (key : Int) (t : TransTable) (account_id : Nat)
    (txs : List TransactionN) : TransTable :=
  txs.foldl
    (fun t tx =>
      t.insertOrIgnore
        { id := 0, account_id := account_id, amount := tx.amount,
          description := tx.description,
          transaction_type := tx.transaction_type, date := tx.date,
          encrypted_notes :=
            if tx.category.isEmpty then none
            else some (sealVal key tx.category) })
    t

/-- The `account_info` dict assembled by `_update_account_from_api` before
sealing. -/
def upsertInfo (a : AccountData) : AccountInfo :=
  { balance := a.balance, currency := a.currency,
    institution := a.institution, last_api_update := a.last_updated }

/-- The fresh `accounts` row inserted by `_update_account_from_api` when no
row matches `(user_id, account_name)`; `created_at`/`updated_at` take the
`CURRENT_TIMESTAMP` default. -/
def upsertNewRow (key : Int) (now : Nat) (newId user_id : Nat)
    (a : AccountData) : AccountRow :=
  { id := newId, user_id := user_id, account_name := a.account_name,
    account_type := a.account_type,
    encrypted_data := sealVal key (upsertInfo a),
    created_at := now, updated_at := now }

/-- `FinancialDataManager._update_account_from_api`: look up an existing
account row by `(user_id, account_name)`; if found, overwrite its
`encrypted_data` with the freshly sealed payload and bump `updated_at`;
otherwise insert a new row.  Then insert the fetched transactions with
`INSERT OR IGNORE`. -/
def update_account_from_api (key : Int) (now : Nat) (db : DB) (user_id : Nat)
    (a : AccountData) : DB :=
  match db.accounts.rows.find? (accountKeyMatches user_id a.account_name) with
  | some existing =>
      { db with
        accounts :=
          { db.accounts with
            rows := db.accounts.rows.map (fun r =>
              if r.id = existing.id then
                { r with encrypted_data := sealVal key (upsertInfo a),
                         updated_at := now }
              else r) },
        transactions :=
          if a.transactions.isEmpty then db.transactions
          else insertTransactions key db.transactions existing.id a.transactions }
  | none =>
      { db with
        accounts :=
          { nextId := db.accounts.nextId + 1,
            rows := db.accounts.rows ++
              [upsertNewRow key now db.accounts.nextId user_id a] },
        transactions :=
          if a.transactions.isEmpty then db.transactions
          else insertTransactions key db.transactions db.accounts.nextId
                 a.transactions }

/-! ## Sync orchestrator (`FinancialDataManager.sync_account_data`) -/

/-- The `sync_results` dict built by `sync_account_data`. -/
structure SyncResults where
  success : Bool
  accounts_updated : Nat
  errors : List String
  last_sync : Nat
deriving DecidableEq, Repr

/-- The effectful environment of one sync run: the process encryption key,
the current clock tick, the outcome of each Plaid account fetch
(`PlaidAPI(...).get_account_data()` together with everything else that can
raise inside the per-connection `try`), whether enumerating connections
fails (the store being unavailable raises outside the loop), and the
quote maps returned by the market-data adapter (symbols without a daily
bar are simply absent). -/
structure SyncEnv where
  key : Int
  now : Nat
  fetchPlaid : ConnectionRow → Except String (List AccountData)
  enumError : Option String
  stockQuotes : List String → List (String × Rat)
  cryptoQuotes : List String → List (String × Rat)

/-- `FinancialDataManager.get_api_connections`:
`SELECT ... FROM api_connections WHERE user_id = ?`. -/
def get_api_connections (db : DB) (user_id : Nat) : List ConnectionRow :=
  db.api_connections.filter (fun c => c.user_id = user_id)

/-- The body of the account loop inside the per-connection loop: reconcile
one fetched account and increment `accounts_updated`. -/
def account_step (key : Int) (now : Nat) (user_id : Nat)
    (st : DB × SyncResults) (a : AccountData) : DB × SyncResults :=
  (update_account_from_api key now st.1 user_id a,
   { st.2 with accounts_updated := st.2.accounts_updated + 1 })

/-- The body of the per-connection loop in `sync_account_data`.  Inactive
connections are skipped.  For a `'plaid'` connection the accounts are
fetched and reconciled one by one (`accounts_updated` is incremented per
account); any exception during the connection's processing is caught:
the error string `"Error syncing {institution}: {e}"` is appended and the
database is left as it was.  Only after successful processing is the
connection's `last_sync` overwritten with the current time — connections
whose `api_type` is not `'plaid'` skip the fetch entirely but still reach
that update. -/
def syncConnection (env : SyncEnv) (user_id : Nat) (st : DB × SyncResults)
    (c : ConnectionRow) : DB × SyncResults :=
  if c.is_active then
    match (if c.api_type = "plaid" then env.fetchPlaid c
           else Except.ok []) with
    | Except.error e =>
        (st.1, { st.2 with errors :=
                   st.2.errors ++
                     ["Error syncing " ++ c.institution_name ++ ": " ++ e] })
    | Except.ok accounts =>
        let st1 := accounts.foldl (account_step env.key env.now user_id) st
        ({ st1.1 with api_connections := st1.1.api_connections.map (fun r =>
             if r.id = c.id then { r with last_sync := some env.now } else r) },
         st1.2)
  else st

/-- One `UPDATE stock_holdings SET current_price = ?, last_updated = ?
WHERE user_id = ? AND symbol = ?` statement applied to one row. -/
def price_update_step (now : Nat) (user_id : Nat) (r : HoldingRow)
    (q : String × Rat) : HoldingRow :=
  if r.user_id = user_id && r.symbol = q.1 then
    { r with current_price := q.2, last_updated := now }
  else r

/-- The per-symbol update loop of `_update_stock_prices` (and, identically,
`_update_crypto_prices`): one `UPDATE` per symbol in the quote map. -/
def update_holding_prices (now : Nat) (user_id : Nat)
    (quotes : List (String × Rat)) (rows : List HoldingRow) : List HoldingRow :=
  quotes.foldl
    (fun rows q => rows.map (fun r => price_update_step now user_id r q))
    rows

/-- `FinancialDataManager._sync_stock_data`: collect the user's held stock
and crypto symbols, fetch quotes for each non-empty class, and apply the
price updates.  All of its own failures are caught internally. -/
def sync_stock_data (env : SyncEnv) (db : DB) (user_id : Nat) : DB :=
  let stockSymbols :=
    (db.stock_holdings.rows.filter (fun r => r.user_id = user_id)).map
      (fun r => r.symbol)
  let cryptoSymbols :=
    (db.crypto_holdings.rows.filter (fun r => r.user_id = user_id)).map
      (fun r => r.symbol)
  let db1 :=
    if stockSymbols.isEmpty then db
    else { db with stock_holdings :=
             { db.stock_holdings with
               rows := update_holding_prices env.now user_id
                 (env.stockQuotes stockSymbols) db.stock_holdings.rows } }
  if cryptoSymbols.isEmpty then db1
  else { db1 with crypto_holdings :=
           { db1.crypto_holdings with
             rows := update_holding_prices env.now user_id
               (env.cryptoQuotes cryptoSymbols) db1.crypto_holdings.rows } }

/-- `FinancialDataManager.sync_account_data`: initialize the result with
`success = True`; enumerate the user's connections (an exception here is
caught by the outer handler, flips `success` to `False` and records a
`"General sync error"`); fold the per-connection loop over them; then run
the market-data pass.  Always returns a result. -/
def sync_account_data (env : SyncEnv) (db : DB) (user_id : Nat) :
    DB × SyncResults :=
  let res0 : SyncResults :=
    { success := true, accounts_updated := 0, errors := [], last_sync := env.now }
  match env.enumError with
  | some e =>
      (db, { res0 with
               success := false,
               errors := res0.errors ++ ["General sync error: " ++ e] })
  | none =>
      let st1 :=
        (get_api_connections db user_id).foldl (syncConnection env user_id)
          (db, res0)
      (sync_stock_data env st1.1 user_id, st1.2)

/-! ## Concrete scenario data used by witnesses and counterexamples -/

/-- A database whose tables are all empty (autoincrement counters at 1). -/
def dbEmptyTables : DB :=
  { api_connections := [], accounts := ⟨1, []⟩, transactions := ⟨1, []⟩,
    stock_holdings := ⟨1, []⟩, crypto_holdings := ⟨1, []⟩ }

/-- First connection of the two-connection scenario: its fetch raises. -/
def connFirst : ConnectionRow :=
  { id := 1, user_id := 7, institution_name := "First Bank",
    api_type := "plaid", encrypted_credentials := sealVal 5 [],
    is_active := true, last_sync := none }

/-- Second connection of the two-connection scenario: its fetch succeeds. -/
def connSecond : ConnectionRow :=
  { id := 2, user_id := 7, institution_name := "Second Bank",
    api_type := "plaid", encrypted_credentials := sealVal 5 [],
    is_active := true, last_sync := none }

/-- The one account returned by the second connection's fetch. -/
def savingsAccount : AccountData :=
  { account_id := "acc2", account_name := "Savings",
    account_type := "checking", balance := 100, currency := "USD",
    institution := "ins_2", last_updated := 100, transactions := [] }

/-- Two active Plaid connections for user 7, otherwise empty tables. -/
def dbTwoConns : DB :=
  { dbEmptyTables with api_connections := [connFirst, connSecond] }

/-- Environment for the two-connection scenario: fetching connection 1
raises `"boom"`, fetching any other connection returns one account. -/
def envTwoConns : SyncEnv :=
  { key := 5, now := 100,
    fetchPlaid := fun c =>
      if c.id = 1 then Except.error "boom" else Except.ok [savingsAccount],
    enumError := none, stockQuotes := fun _ => [], cryptoQuotes := fun _ => [] }

/-- An environment in which every fetch succeeds with no accounts. -/
def envIdle : SyncEnv :=
  { key := 5, now := 100, fetchPlaid := fun _ => Except.ok [],
    enumError := none, stockQuotes := fun _ => [], cryptoQuotes := fun _ => [] }

/-- A fresh sync-results record as initialized by `sync_account_data`. -/
def resInit : SyncResults :=
  { success := true, accounts_updated := 0, errors := [], last_sync := 100 }

/-- An active connection whose `api_type` is `'yfinance'`, not `'plaid'`. -/
def connYf : ConnectionRow :=
  { id := 3, user_id := 7, institution_name := "Yahoo",
    api_type := "yfinance", encrypted_credentials := sealVal 5 [],
    is_active := true, last_sync := none }

/-- A database holding only the `'yfinance'` connection. -/
def dbYf : DB := { dbEmptyTables with api_connections := [connYf] }

/-- First upsert of the "Checking" scenario: balance 100. -/
def checkingFirst : AccountData :=
  { account_id := "a1", account_name := "Checking",
    account_type := "checking", balance := 100, currency := "USD",
    institution := "ins_1", last_updated := 10, transactions := [] }

/-- Second upsert of the "Checking" scenario: balance 200. -/
def checkingSecond : AccountData :=
  { account_id := "a1", account_name := "Checking",
    account_type := "checking", balance := 200, currency := "USD",
    institution := "ins_1", last_updated := 20, transactions := [] }

/-- A holding for MSFT, used to check the price-refresh frame property. -/
def msftRow : HoldingRow :=
  { id := 1, user_id := 7, symbol := "MSFT", shares := 10,
    purchase_price := 100, current_price := 111, last_updated := 0 }

/-! ## Theorems -/

/-- C9: sealing any plaintext byte sequence and then opening the blob with
the same key returns the original bytes exactly; `sealBytes` (the model of
`seal`, wrapped by `encrypt_data`) is a total function, so sealing never
fails for well-formed input. -/
theorem c9_seal_open_roundtrip (key : Int) (pt : List Int) :
    decrypt_data key (encrypt_data key pt) = some pt := by
  simp [decrypt_data, encrypt_data, sealBytes, openBlob, List.map_map,
    Function.comp_def]

/-- C1 (evaluation at the failing input): the `transactions` schema has no
uniqueness constraint on the natural key, so `INSERT OR IGNORE` always
inserts; inserting the transaction (account 1, amount 42.50, description
"Coffee", type "debit", date "2024-01-05") twice stores two rows with that
natural key, not one. -/
theorem c1_duplicate_transaction_inserted_twice :
    ((TransTable.insertOrIgnore
          (TransTable.insertOrIgnore ⟨1, []⟩
            ⟨0, 1, mkRat 85 2, "Coffee", "debit", "2024-01-05", none⟩)
          ⟨0, 1, mkRat 85 2, "Coffee", "debit", "2024-01-05", none⟩).rows.filter
        (transNaturalKeyEq 1 (mkRat 85 2) "Coffee" "debit" "2024-01-05")).length = 2 := by
  decide

/-- C3 (evaluation at the failing input): the `stock_holdings` schema has
no uniqueness constraint on `(user_id, symbol)`, so `INSERT OR REPLACE`
always inserts a fresh row; adding an AAPL holding twice for user 1 leaves
two rows for `(1, AAPL)` instead of replacing the first. -/
theorem c3_duplicate_holding_row_on_readd :
    ((add_stock_holding 0
          (add_stock_holding 0 ⟨1, []⟩ 1 "AAPL" 10 150) 1 "AAPL" 5 160).rows.filter
        (fun r => r.user_id = 1 && r.symbol = "AAPL")).length = 2 := by
  decide

/-- C6 (counterexample): the provider label `'brokerage'` is mapped to
`'stock'`, which is not a member of the claimed internal account-kind enum
(checking/credit/loan/investment/brokerage/other). -/
theorem c6_brokerage_not_in_claimed_enum :
    map_account_type "brokerage" = "stock" ∧
      map_account_type "brokerage" ∉
        ["checking", "credit", "loan", "investment", "brokerage", "other"] := by
  decide

/-- C6 (amended): every provider label is mapped by the fixed lookup table
into the set {checking, credit, loan, investment, stock, other}, with
`'depository'` mapping to `'checking'` and unrecognized labels such as
`'foobar'` mapping to `'other'`. -/
theorem c6_map_account_type_amended (plaid_type : String) :
    map_account_type plaid_type ∈
        ["checking", "credit", "loan", "investment", "stock", "other"] ∧
      map_account_type "depository" = "checking" ∧
      map_account_type "foobar" = "other" := by
  refine ⟨?_, by decide, by decide⟩
  unfold map_account_type
  split_ifs <;> simp

/-- C7: the transaction request of `_get_transactions` covers the trailing
30-day window ending now, the stored amount is the magnitude of the
provider's signed amount, and the direction is `'credit'` exactly for
strictly positive provider amounts and `'debit'` for negative or zero
ones. -/
theorem c7_transaction_normalization (now : Int) (t : PlaidTransaction) :
    transactions_window now = (now - 30, now) ∧
      (normalize_transaction t).amount = |t.amount| ∧
      (0 < t.amount → (normalize_transaction t).transaction_type = "credit") ∧
      (t.amount ≤ 0 → (normalize_transaction t).transaction_type = "debit") := by
  refine ⟨rfl, rfl, fun h => ?_, fun h => ?_⟩
  · simp [normalize_transaction, h]
  · simp [normalize_transaction, not_lt.mpr h]

/-- C7 witness: at a concrete positive-amount transaction the direction is
`'credit'` and the window at tick 40 is (10, 40). -/
theorem c7_transaction_normalization_witness :
    transactions_window 40 = (40 - 30, 40) ∧
      (normalize_transaction ⟨5, "Coffee", "2024-01-05", []⟩).transaction_type
        = "credit" :=
  ⟨(c7_transaction_normalization 40 ⟨5, "Coffee", "2024-01-05", []⟩).1,
   (c7_transaction_normalization 40 ⟨5, "Coffee", "2024-01-05", []⟩).2.2.1
     (by norm_num)⟩

/-- One price-update statement never touches `id`, `user_id`, `symbol`,
`shares` or `purchase_price`. -/
theorem price_update_step_static (now user_id : Nat) (r : HoldingRow)
    (q : String × Rat) :
    (price_update_step now user_id r q).id = r.id ∧
      (price_update_step now user_id r q).user_id = r.user_id ∧
      (price_update_step now user_id r q).symbol = r.symbol ∧
      (price_update_step now user_id r q).shares = r.shares ∧
      (price_update_step now user_id r q).purchase_price = r.purchase_price := by
  unfold price_update_step
  split <;> exact ⟨rfl, rfl, rfl, rfl, rfl⟩

/-- A price-update statement whose `WHERE` clause does not match the row
leaves it unchanged. -/
theorem price_update_step_skip (now user_id : Nat) (r : HoldingRow)
    (q : String × Rat) (h : r.user_id ≠ user_id ∨ q.1 ≠ r.symbol) :
    price_update_step now user_id r q = r := by
  rcases h with h | h <;> simp [price_update_step, h, Ne.symm h]

/-- Folding the update statements of a whole quote map over one row never
touches `id`, `user_id`, `symbol`, `shares` or `purchase_price`. -/
theorem price_fold_static (now user_id : Nat) (quotes : List (String × Rat))
    (r : HoldingRow) :
    (quotes.foldl (price_update_step now user_id) r).id = r.id ∧
      (quotes.foldl (price_update_step now user_id) r).user_id = r.user_id ∧
      (quotes.foldl (price_update_step now user_id) r).symbol = r.symbol ∧
      (quotes.foldl (price_update_step now user_id) r).shares = r.shares ∧
      (quotes.foldl (price_update_step now user_id) r).purchase_price
        = r.purchase_price := by
  induction quotes generalizing r with
  | nil => exact ⟨rfl, rfl, rfl, rfl, rfl⟩
  | cons q qs ih =>
      have hs := price_update_step_static now user_id r q
      have hf := ih (price_update_step now user_id r q)
      simp only [List.foldl_cons]
      exact ⟨hf.1.trans hs.1, hf.2.1.trans hs.2.1, hf.2.2.1.trans hs.2.2.1,
        hf.2.2.2.1.trans hs.2.2.2.1, hf.2.2.2.2.trans hs.2.2.2.2⟩

/-- A row belonging to another user, or whose symbol appears nowhere in the
quote map, is left unchanged by the whole fold. -/
theorem price_fold_skip (now user_id : Nat) (quotes : List (String × Rat))
    (r : HoldingRow)
    (h : r.user_id ≠ user_id ∨ ∀ q ∈ quotes, q.1 ≠ r.symbol) :
    quotes.foldl (price_update_step now user_id) r = r := by
  induction quotes with
  | nil => rfl
  | cons q qs ih =>
      have hstep : price_update_step now user_id r q = r := by
        rcases h with h | h
        · exact price_update_step_skip now user_id r q (Or.inl h)
        · exact price_update_step_skip now user_id r q
            (Or.inr (h q (List.mem_cons_self q qs)))
      have hrest : r.user_id ≠ user_id ∨ ∀ p ∈ qs, p.1 ≠ r.symbol := by
        rcases h with h | h
        · exact Or.inl h
        · exact Or.inr (fun p hp => h p (List.mem_cons_of_mem q hp))
      simp only [List.foldl_cons, hstep]
      exact ih hrest

/-- The table-level update loop is the row-wise fold applied to each row:
the `UPDATE` statements act independently on every row. -/
theorem update_holding_prices_eq_map (now user_id : Nat)
    (quotes : List (String × Rat)) (rows : List HoldingRow) :
    update_holding_prices now user_id quotes rows =
      rows.map (fun r => quotes.foldl (price_update_step now user_id) r) := by
  induction quotes generalizing rows with
  | nil => simp [update_holding_prices]
  | cons q qs ih =>
      have h1 : update_holding_prices now user_id (q :: qs) rows
          = update_holding_prices now user_id qs
              (rows.map (fun r => price_update_step now user_id r q)) := rfl
      rw [h1, ih, List.map_map]
      rfl

/-- C8: the price-refresh loop deletes no row; on every row it can only
overwrite `current_price` and `last_updated` (identity, owner, symbol,
quantity and purchase price are untouched); and a row belonging to another
user or whose symbol is absent from the quote map is left entirely
unchanged. -/
theorem c8_refresh_prices_frame (now user_id : Nat)
    (quotes : List (String × Rat)) (rows : List HoldingRow) (i : Nat)
    (h1 : i < rows.length)
    (h2 : i < (update_holding_prices now user_id quotes rows).length) :
    (update_holding_prices now user_id quotes rows).length = rows.length ∧
      ((update_holding_prices now user_id quotes rows).get ⟨i, h2⟩).id
        = (rows.get ⟨i, h1⟩).id ∧
      ((update_holding_prices now user_id quotes rows).get ⟨i, h2⟩).user_id
        = (rows.get ⟨i, h1⟩).user_id ∧
      ((update_holding_prices now user_id quotes rows).get ⟨i, h2⟩).symbol
        = (rows.get ⟨i, h1⟩).symbol ∧
      ((update_holding_prices now user_id quotes rows).get ⟨i, h2⟩).shares
        = (rows.get ⟨i, h1⟩).shares ∧
      ((update_holding_prices now user_id quotes rows).get ⟨i, h2⟩).purchase_price
        = (rows.get ⟨i, h1⟩).purchase_price ∧
      (((rows.get ⟨i, h1⟩).user_id ≠ user_id ∨
          ∀ q ∈ quotes, q.1 ≠ (rows.get ⟨i, h1⟩).symbol) →
        (update_holding_prices now user_id quotes rows).get ⟨i, h2⟩
          = rows.get ⟨i, h1⟩) := by
  have hmap := update_holding_prices_eq_map now user_id quotes rows
  have hget : (update_holding_prices now user_id quotes rows).get ⟨i, h2⟩
      = quotes.foldl (price_update_step now user_id) (rows.get ⟨i, h1⟩) := by
    simp only [List.get_eq_getElem]
    rw [List.getElem_of_eq hmap h2]
    simp [List.getElem_map]
  have hstatic := price_fold_static now user_id quotes (rows.get ⟨i, h1⟩)
  refine ⟨by rw [hmap, List.length_map], ?_, ?_, ?_, ?_, ?_, ?_⟩
  · rw [hget]; exact hstatic.1
  · rw [hget]; exact hstatic.2.1
  · rw [hget]; exact hstatic.2.2.1
  · rw [hget]; exact hstatic.2.2.2.1
  · rw [hget]; exact hstatic.2.2.2.2
  · intro h
    rw [hget]
    exact price_fold_skip now user_id quotes (rows.get ⟨i, h1⟩) h

/-- C8 witness: with quotes only for AAPL, the MSFT holding of user 7 is
untouched and the table keeps its single row. -/
theorem c8_refresh_prices_frame_witness :
    (update_holding_prices 5 7 [("AAPL", 1)] [msftRow]).length
        = [msftRow].length ∧
      (update_holding_prices 5 7 [("AAPL", 1)] [msftRow]).get
          ⟨0, by decide⟩ = [msftRow].get ⟨0, by decide⟩ := by
  have h := c8_refresh_prices_frame 5 7 [("AAPL", 1)] [msftRow] 0
    (by decide) (by decide)
  exact ⟨h.1, h.2.2.2.2.2.2 (Or.inr (by decide))⟩

/-- Insert case of the upsert: when no row matches `(user_id,
account_name)`, a single new row is appended and the autoincrement counter
advances. -/
theorem upsert_insert_case (key : Int) (now : Nat) (db : DB) (user_id : Nat)
    (a : AccountData)
    (h : db.accounts.rows.find? (accountKeyMatches user_id a.account_name)
      = none) :
    (update_account_from_api key now db user_id a).accounts
      = { nextId := db.accounts.nextId + 1,
          rows := db.accounts.rows ++
            [upsertNewRow key now db.accounts.nextId user_id a] } := by
  unfold update_account_from_api
  rw [h]

/-- Update case of the upsert: when a row matches `(user_id,
account_name)`, only the row with the matched id is rewritten (payload
resealed, `updated_at` bumped) and no row is added. -/
theorem upsert_update_case (key : Int) (now : Nat) (db : DB) (user_id : Nat)
    (a : AccountData) (existing : AccountRow)
    (h : db.accounts.rows.find? (accountKeyMatches user_id a.account_name)
      = some existing) :
    (update_account_from_api key now db user_id a).accounts
      = { db.accounts with
          rows := db.accounts.rows.map (fun r =>
            if r.id = existing.id then
              { r with encrypted_data := sealVal key (upsertInfo a),
                       updated_at := now }
            else r) } := by
  unfold update_account_from_api
  rw [h]

/-- C4: upserting looks up by `(user, display name)`, inserting when absent
and overwriting payload + timestamp when present; upserting twice under the
same user with the same display name (starting from a store with no match)
leaves exactly one matching AccountRecord, whose payload carries the second
balance and whose timestamp is the second upsert's, with the table having
grown by exactly one row. -/
theorem c4_upsert_account_by_user_and_name (key : Int) (now1 now2 : Nat)
    (db : DB) (user : Nat) (a1 a2 : AccountData)
    (hname : a1.account_name = a2.account_name)
    (hfresh : ∀ r ∈ db.accounts.rows, r.id < db.accounts.nextId)
    (habsent : ∀ r ∈ db.accounts.rows,
      accountKeyMatches user a1.account_name r = false) :
    ((update_account_from_api key now2
        (update_account_from_api key now1 db user a1) user a2).accounts.rows.filter
          (accountKeyMatches user a2.account_name)).length = 1 ∧
      (∀ r ∈ (update_account_from_api key now2
          (update_account_from_api key now1 db user a1) user a2).accounts.rows.filter
            (accountKeyMatches user a2.account_name),
        r.encrypted_data.payload.balance = a2.balance ∧ r.updated_at = now2) ∧
      (update_account_from_api key now2
          (update_account_from_api key now1 db user a1) user a2).accounts.rows.length
        = db.accounts.rows.length + 1 := by
  have habsent2 : ∀ r ∈ db.accounts.rows,
      accountKeyMatches user a2.account_name r = false := by
    intro r hr
    rw [← hname]
    exact habsent r hr
  have hfind1 : db.accounts.rows.find?
      (accountKeyMatches user a1.account_name) = none :=
    List.find?_eq_none.mpr (fun r hr => by simp [habsent r hr])
  have hacc1 := upsert_insert_case key now1 db user a1 hfind1
  set new1 : AccountRow :=
    upsertNewRow key now1 db.accounts.nextId user a1 with hnew1def
  have hmatch1 : accountKeyMatches user a2.account_name new1 = true := by
    simp [hnew1def, accountKeyMatches, upsertNewRow, hname]
  have hfind2 : (update_account_from_api key now1 db user a1).accounts.rows.find?
      (accountKeyMatches user a2.account_name) = some new1 := by
    rw [hacc1]
    rw [List.find?_append]
    rw [List.find?_eq_none.mpr (fun r hr => by simp [habsent2 r hr])]
    simp [List.find?_cons, hmatch1]
  have hacc2 := upsert_update_case key now2
    (update_account_from_api key now1 db user a1) user a2 new1 hfind2
  set upd : AccountRow :=
    { new1 with encrypted_data := sealVal key (upsertInfo a2),
                updated_at := now2 } with hupddef
  have hrows2 : (update_account_from_api key now2
      (update_account_from_api key now1 db user a1) user a2).accounts.rows
      = db.accounts.rows ++ [upd] := by
    rw [hacc2, hacc1]
    simp only [List.map_append]
    have hold : db.accounts.rows.map (fun r =>
        if r.id = new1.id then
          { r with encrypted_data := sealVal key (upsertInfo a2),
                   updated_at := now2 }
        else r) = db.accounts.rows := by
      rw [List.map_congr_left (fun r hr => ?_), List.map_id']
      have hne : r.id ≠ new1.id := by
        have := hfresh r hr
        simp only [hnew1def, upsertNewRow]
        exact Nat.ne_of_lt this
      rw [if_neg hne]
    have hnew : [new1].map (fun r =>
        if r.id = new1.id then
          { r with encrypted_data := sealVal key (upsertInfo a2),
                   updated_at := now2 }
        else r) = [upd] := by
      simp [hupddef]
    rw [hold, hnew]
  have hmatchupd : accountKeyMatches user a2.account_name upd = true := by
    simp only [hupddef, hnew1def, accountKeyMatches, upsertNewRow] at hmatch1 ⊢
    exact hmatch1
  have hfilter : (update_account_from_api key now2
      (update_account_from_api key now1 db user a1) user a2).accounts.rows.filter
        (accountKeyMatches user a2.account_name) = [upd] := by
    rw [hrows2, List.filter_append]
    rw [List.filter_eq_nil_iff.mpr (fun r hr => by simp [habsent2 r hr])]
    simp [hmatchupd]
  refine ⟨by rw [hfilter]; rfl, ?_, by rw [hrows2]; simp⟩
  intro r hr
  rw [hfilter] at hr
  rcases List.mem_singleton.mp hr with rfl
  exact ⟨rfl, rfl⟩

/-- C4 witness: upserting "Checking" twice for user 7 into an empty store
leaves exactly one row matching (7, "Checking"). -/
theorem c4_upsert_account_witness :
    ((update_account_from_api 3 20
        (update_account_from_api 3 10 dbEmptyTables 7 checkingFirst) 7
        checkingSecond).accounts.rows.filter
          (accountKeyMatches 7 checkingSecond.account_name)).length = 1 :=
  (c4_upsert_account_by_user_and_name 3 10 20 dbEmptyTables 7 checkingFirst
    checkingSecond rfl (by simp [dbEmptyTables]) (by simp [dbEmptyTables])).1

/-- The account loop inside a connection only updates the store and the
`accounts_updated` counter; it never touches the `success` flag. -/
theorem account_fold_success (key : Int) (now : Nat) (user_id : Nat)
    (accounts : List AccountData) (st : DB × SyncResults) :
    ((accounts.foldl (account_step key now user_id) st).2).success
      = st.2.success := by
  induction accounts generalizing st with
  | nil => rfl
  | cons a as ih =>
      rw [List.foldl_cons, ih]
      rfl

/-- One iteration of the per-connection loop never changes the `success`
flag: per-connection failures only append to `errors`. -/
theorem syncConnection_success (env : SyncEnv) (user_id : Nat)
    (st : DB × SyncResults) (c : ConnectionRow) :
    (syncConnection env user_id st c).2.success = st.2.success := by
  unfold syncConnection
  by_cases hact : c.is_active = true
  · rw [if_pos hact]
    cases hfetch : (if c.api_type = "plaid" then env.fetchPlaid c
        else Except.ok []) with
    | error e => rfl
    | ok accounts => exact account_fold_success env.key env.now user_id accounts st
  · rw [if_neg hact]

/-- Folding the whole per-connection loop never changes the `success`
flag. -/
theorem connections_fold_success (env : SyncEnv) (user_id : Nat)
    (conns : List ConnectionRow) (st : DB × SyncResults) :
    ((conns.foldl (syncConnection env user_id) st).2).success
      = st.2.success := by
  induction conns generalizing st with
  | nil => rfl
  | cons c cs ih => rw [List.foldl_cons, ih, syncConnection_success]

/-- C5: `sync_account_data` always returns a result (it is a total
function), and the returned `success` flag is `false` exactly when the
error arose outside the per-connection loop (failing to enumerate
connections); per-connection errors accumulate in `errors` without ever
flipping `success`. -/
theorem c5_success_only_flipped_outside_loop (env : SyncEnv) (db : DB)
    (user_id : Nat) :
    (sync_account_data env db user_id).2.success = env.enumError.isNone := by
  unfold sync_account_data
  cases henum : env.enumError with
  | some e => rfl
  | none =>
      exact connections_fold_success env user_id
        (get_api_connections db user_id) _

/-- C2 (amended): when a connection's processing raises, the formatted
error string naming its institution is appended and the step returns
normally — so the loop continues with the next connection — but the
database, including that connection's `last_sync`, is left exactly as it
was: the timestamp is NOT updated for an errored connection. -/
theorem c2_errored_connection_db_unchanged (env : SyncEnv) (user_id : Nat)
    (db : DB) (res : SyncResults) (c : ConnectionRow) (e : String)
    (hact : c.is_active = true) (hty : c.api_type = "plaid")
    (hfetch : env.fetchPlaid c = Except.error e) :
    syncConnection env user_id (db, res) c =
      (db, { res with errors := res.errors ++
        ["Error syncing " ++ c.institution_name ++ ": " ++ e] }) := by
  unfold syncConnection
  rw [if_pos hact, if_pos hty, hfetch]

/-- C2 (amended) witness: the errored first connection of the
two-connection scenario leaves the database untouched and appends exactly
its formatted error string. -/
theorem c2_errored_connection_db_unchanged_witness :
    syncConnection envTwoConns 7 (dbTwoConns, resInit) connFirst =
      (dbTwoConns, { resInit with errors := resInit.errors ++
        ["Error syncing " ++ connFirst.institution_name ++ ": " ++ "boom"] }) :=
  c2_errored_connection_db_unchanged envTwoConns 7 dbTwoConns resInit connFirst
    "boom" rfl rfl rfl

/-- C2 (counterexample): in the two-connection scenario the first
connection errors and the second succeeds; the sync records the first
institution's error and still reports success, but — contrary to the
claim — the errored connection's `last_sync` remains `none` (only the
successful connection's timestamp is updated). -/
theorem c2_counterexample_last_sync_not_updated :
    (sync_account_data envTwoConns dbTwoConns 7).1.api_connections.map
        (fun c => (c.id, c.last_sync)) = [(1, none), (2, some 100)] ∧
      (sync_account_data envTwoConns dbTwoConns 7).2.errors
        = ["Error syncing First Bank: boom"] ∧
      (sync_account_data envTwoConns dbTwoConns 7).2.success = true ∧
      (sync_account_data envTwoConns dbTwoConns 7).2.accounts_updated = 1 := by
  decide

/-- C10: an active connection whose `api_type` is not `'plaid'` triggers no
fetch and no reconciliation and appends no error, yet its `last_sync` is
still overwritten with the current time — the only change to the store. -/
theorem c10_non_plaid_updates_only_last_sync (env : SyncEnv) (user_id : Nat)
    (db : DB) (res : SyncResults) (c : ConnectionRow)
    (hact : c.is_active = true) (hty : c.api_type ≠ "plaid") :
    syncConnection env user_id (db, res) c =
      ({ db with api_connections := db.api_connections.map (fun r =>
           if r.id = c.id then { r with last_sync := some env.now } else r) },
       res) := by
  unfold syncConnection
  rw [if_pos hact, if_neg hty]
  rfl

/-- C10 witness: the `'yfinance'` connection's step updates exactly its
`last_sync` and nothing else. -/
theorem c10_non_plaid_witness :
    syncConnection envIdle 7 (dbYf, resInit) connYf =
      ({ dbYf with api_connections := dbYf.api_connections.map (fun r =>
           if r.id = connYf.id then { r with last_sync := some envIdle.now }
           else r) },
       resInit) :=
  c10_non_plaid_updates_only_last_sync envIdle 7 dbYf resInit connYf rfl
    (by decide)
